import Mathlib

/-
Shallow embedding of the IKAR-DAW audio engine (src/utils/audio-engine.ts and
the UI handlers of src/unnamed/part_001) together with proofs about its
scheduling, mixing, offline rendering and WAV-encoding behaviour.

Conventions:
- JavaScript numbers are modelled as rationals (ℚ); the bitwise coercion
  `| 0` (ToInt32) is modelled exactly as truncation toward zero followed by
  wrapping into the signed 32-bit range.
- `Math.min` / `Math.max` are translated as conditionals on ℚ.
- Opaque `any`-typed parameter bags (effect settings, synth settings,
  compressor settings) are modelled by an opaque type `Cfg`; Tone's `set`,
  which merges such a bag into a node, is modelled as replacing the node's
  held bag, which is faithful up to the contents of the opaque bags.
- Fallible JavaScript paths (out-of-bounds index followed by a property
  access, i.e. a thrown TypeError) are modelled by `Option`, with `none`
  for the crash.
-/

namespace IkarDaw

/-! ## WAV encoding (audioBufferToWav, audio-engine.ts lines 484-538) -/

/-- JS `Math.min a b`: the smaller argument. -/
def jsMin (a b : ℚ) : ℚ := if a ≤ b then a else b

/-- JS `Math.max a b`: the larger argument. -/
def jsMax (a b : ℚ) : ℚ := if a ≤ b then b else a

/-- Line 519: `Math.max(-1, Math.min(1, v))`. -/
def clampSample (x : ℚ) : ℚ := jsMax (-1) (jsMin 1 x)

/-- Truncation toward zero, the first half of JS ToInt32 (`| 0`). -/
def jsTrunc (q : ℚ) : ℤ := if q < 0 then -(Rat.floor (-q)) else Rat.floor q

/-- Wrapping into the signed 32-bit range, the second half of JS ToInt32. -/
def wrap32 (z : ℤ) : ℤ := (z + 2147483648) % 4294967296 - 2147483648

/-- Line 519-520: one sample of the data chunk, before the 16-bit write.
`sample = Math.max(-1, Math.min(1, v));`
`sample = (0.5 + sample < 0 ? sample * 32768 : sample * 32767) | 0;`
JS operator precedence makes the condition `(0.5 + sample) < 0`. -/
def encodeSample (x : ℚ) : ℤ :=
  let s := clampSample x
  wrap32 (jsTrunc (if 1 / 2 + s < 0 then s * 32768 else s * 32767))

/-- Reading past the end of a channel array yields `undefined`; the clamp
then produces `NaN`, the ternary takes its else branch (`NaN < 0` is false),
`NaN * 32767` is `NaN`, and `NaN | 0` is `0`. -/
def encodeSampleOpt : Option ℚ → ℤ
  | none => 0
  | some q => encodeSample q

/-- The two bytes `setInt16 _ z true` stores (little-endian, wrapped mod 2^16). -/
def sampleU16 (v : Option ℚ) : ℕ := (encodeSampleOpt v % 65536).toNat

/-- Little-endian bytes of `setUint16`. -/
def u16le (n : ℕ) : List ℕ := [n % 256, n / 256 % 256]

/-- Little-endian bytes of `setUint32`. -/
def u32le (n : ℕ) : List ℕ :=
  [n % 256, n / 256 % 256, n / 65536 % 256, n / 16777216 % 256]

/-- The offline render result the encoder consumes: channel count, frame
count, sample rate and per-channel float data, as read off an AudioBuffer. -/
structure RenderedBuffer where
  numberOfChannels : ℕ
  frameCount : ℕ
  sampleRate : ℕ
  channelData : List (List ℚ)
deriving DecidableEq

/-- Lines 484-527: the byte stream of the produced WAV blob.  Header writes
appear in source order; the data loop writes `frameCount` interleaved frames
of `numberOfChannels` 16-bit samples. -/
def audioBufferToWav (buf : RenderedBuffer) : List ℕ :=
  let len := buf.frameCount * buf.numberOfChannels * 2 + 44
  u32le 0x46464952 ++
  u32le (len - 8) ++
  u32le 0x45564157 ++
  u32le 0x20746d66 ++
  u32le 16 ++
  u16le 1 ++
  u16le buf.numberOfChannels ++
  u32le buf.sampleRate ++
  u32le (buf.sampleRate * 2 * buf.numberOfChannels) ++
  u16le (buf.numberOfChannels * 2) ++
  u16le 16 ++
  u32le 0x61746164 ++
  u32le (len - 44) ++
  (List.range buf.frameCount).flatMap (fun frame =>
    (List.range buf.numberOfChannels).flatMap (fun i =>
      u16le (sampleU16 (buf.channelData[i]?.bind (fun ch => ch[frame]?)))))

/-- Byte at an offset of the encoded stream (0 beyond the end). -/
def byteAt : List ℕ → ℕ → ℕ
  | [], _ => 0
  | b :: _, 0 => b
  | _ :: l, n + 1 => byteAt l n

/-- The little-endian 16-bit value at a byte offset. -/
def readU16LE (l : List ℕ) (off : ℕ) : ℕ :=
  byteAt l off + 256 * byteAt l (off + 1)

/-- The little-endian 32-bit value at a byte offset. -/
def readU32LE (l : List ℕ) (off : ℕ) : ℕ :=
  byteAt l off + 256 * byteAt l (off + 1) +
    65536 * byteAt l (off + 2) + 16777216 * byteAt l (off + 3)

theorem ratFloor_eq_floor (q : ℚ) : Rat.floor q = ⌊q⌋ := rfl

theorem wrap32_eq (z : ℤ) (h1 : -2147483648 ≤ z) (h2 : z < 2147483648) :
    wrap32 z = z := by
  unfold wrap32; omega

theorem clampSample_bounds (x : ℚ) : -1 ≤ clampSample x ∧ clampSample x ≤ 1 := by
  unfold clampSample jsMax jsMin
  split_ifs with h1 h2 h3 <;> constructor <;> linarith

theorem jsTrunc_range (q : ℚ) (h1 : -32768 ≤ q) (h2 : q ≤ 32768) :
    -32768 ≤ jsTrunc q ∧ jsTrunc q ≤ 32768 := by
  unfold jsTrunc
  rw [ratFloor_eq_floor, ratFloor_eq_floor]
  split_ifs with h
  · have hub : ⌊-q⌋ ≤ 32768 := by
      have := Int.floor_le_floor (α := ℚ) (show -q ≤ ((32768 : ℤ) : ℚ) by push_cast; linarith)
      simpa using this
    have hlb : 0 ≤ ⌊-q⌋ := Int.floor_nonneg.mpr (by linarith)
    omega
  · have hlb : 0 ≤ ⌊q⌋ := Int.floor_nonneg.mpr (by linarith)
    have hub : ⌊q⌋ ≤ 32768 := by
      have := Int.floor_le_floor (α := ℚ) (show q ≤ ((32768 : ℤ) : ℚ) by push_cast; linarith)
      simpa using this
    omega

/-- C2 (counterexample): at the input -1/4 the clamped sample is negative,
yet the code scales it by 32767 (the condition `0.5 + sample < 0` is false),
yielding -8191, while scaling a negative sample by 32768 as the claim states
would yield -8192. -/
theorem wav_scale_threshold_counterexample :
    clampSample (Rat.divInt (-1) 4) < 0 ∧
    encodeSample (Rat.divInt (-1) 4) = -8191 ∧
    jsTrunc (clampSample (Rat.divInt (-1) 4) * 32768) = -8192 ∧
    encodeSample (Rat.divInt (-1) 4) ≠
      jsTrunc (clampSample (Rat.divInt (-1) 4) * 32768) := by
  have hx : Rat.divInt (-1) 4 = -(1 / 4 : ℚ) := by
    rw [Rat.divInt_eq_div]; norm_num
  have hclamp : clampSample (-(1 / 4 : ℚ)) = -(1 / 4 : ℚ) := by
    have c1 : ¬ ((1 : ℚ) ≤ -(1 / 4 : ℚ)) := by norm_num
    have c2 : (-1 : ℚ) ≤ -(1 / 4 : ℚ) := by norm_num
    unfold clampSample jsMin jsMax
    rw [if_neg c1, if_pos c2]
  have henc : encodeSample (-(1 / 4 : ℚ)) = -8191 := by
    simp only [encodeSample]
    rw [hclamp, if_neg (by norm_num)]
    unfold jsTrunc
    rw [if_pos (by norm_num), ratFloor_eq_floor]
    have hfl : ⌊-(-(1 / 4 : ℚ) * 32767)⌋ = 8191 := by norm_num
    rw [hfl]
    decide
  have htr : jsTrunc (-(1 / 4 : ℚ) * 32768) = -8192 := by
    unfold jsTrunc
    rw [if_pos (by norm_num), ratFloor_eq_floor]
    norm_num
  refine ⟨?_, ?_, ?_, ?_⟩
  · rw [hx, hclamp]; norm_num
  · rw [hx]; exact henc
  · rw [hx, hclamp]; exact htr
  · rw [hx, hclamp, henc, htr]; decide

/-- C2 (amended): every float sample is first clamped to [-1, 1]; a clamped
sample strictly below -0.5 is scaled by 32768, and a clamped sample at or
above -0.5 (in particular every negative clamped sample in (-0.5, 0)) is
scaled by 32767, before truncation toward zero to a 16-bit signed integer. -/
theorem wav_scale_amended (x : ℚ) :
    (clampSample x < -(1 / 2) →
       encodeSample x = jsTrunc (clampSample x * 32768)) ∧
    (-(1 / 2) ≤ clampSample x →
       encodeSample x = jsTrunc (clampSample x * 32767)) := by
  obtain ⟨hl, hr⟩ := clampSample_bounds x
  constructor
  · intro h
    simp only [encodeSample]
    rw [if_pos (by linarith)]
    have h1 : (-32768 : ℚ) ≤ clampSample x * 32768 := by nlinarith
    have h2 : clampSample x * 32768 ≤ 32768 := by nlinarith
    obtain ⟨b1, b2⟩ := jsTrunc_range _ h1 h2
    exact wrap32_eq _ (by omega) (by omega)
  · intro h
    simp only [encodeSample]
    rw [if_neg (by linarith)]
    have h1 : (-32768 : ℚ) ≤ clampSample x * 32767 := by nlinarith
    have h2 : clampSample x * 32767 ≤ 32768 := by nlinarith
    obtain ⟨b1, b2⟩ := jsTrunc_range _ h1 h2
    exact wrap32_eq _ (by omega) (by omega)

/-- Witness for `wav_scale_amended` at the concrete input -1. -/
theorem wav_scale_amended_witness :
    clampSample (-1) < -(1 / 2) ∧
    encodeSample (-1) = jsTrunc (clampSample (-1) * 32768) := by
  have he : clampSample (-1 : ℚ) = -1 := by decide
  have h : clampSample (-1 : ℚ) < -(1 / 2) := by
    rw [he]; exact neg_lt_neg one_half_lt_one
  exact ⟨h, (wav_scale_amended (-1)).1 h⟩

set_option maxHeartbeats 2000000 in
/-- C6: for a rendered buffer of N frames, C channels and sample rate R, the
44-byte header of the encoded WAV has the little-endian 32-bit value
N*C*2 + 44 - 8 at byte offset 4, the 16-bit value C at offset 22, the 32-bit
value R at offset 24, and the 16-bit value 16 at offset 34. -/
theorem wav_header_layout (buf : RenderedBuffer)
    (hC : buf.numberOfChannels < 65536)
    (hR : buf.sampleRate < 4294967296)
    (hN : buf.frameCount * buf.numberOfChannels * 2 + 36 < 4294967296) :
    readU32LE (audioBufferToWav buf) 4 =
      buf.frameCount * buf.numberOfChannels * 2 + 44 - 8 ∧
    readU16LE (audioBufferToWav buf) 22 = buf.numberOfChannels ∧
    readU32LE (audioBufferToWav buf) 24 = buf.sampleRate ∧
    readU16LE (audioBufferToWav buf) 34 = 16 := by
  have b4 : byteAt (audioBufferToWav buf) 4 =
      (buf.frameCount * buf.numberOfChannels * 2 + 44 - 8) % 256 := rfl
  have b5 : byteAt (audioBufferToWav buf) 5 =
      (buf.frameCount * buf.numberOfChannels * 2 + 44 - 8) / 256 % 256 := rfl
  have b6 : byteAt (audioBufferToWav buf) 6 =
      (buf.frameCount * buf.numberOfChannels * 2 + 44 - 8) / 65536 % 256 := rfl
  have b7 : byteAt (audioBufferToWav buf) 7 =
      (buf.frameCount * buf.numberOfChannels * 2 + 44 - 8) / 16777216 % 256 := rfl
  have b22 : byteAt (audioBufferToWav buf) 22 = buf.numberOfChannels % 256 := rfl
  have b23 : byteAt (audioBufferToWav buf) 23 = buf.numberOfChannels / 256 % 256 := rfl
  have b24 : byteAt (audioBufferToWav buf) 24 = buf.sampleRate % 256 := rfl
  have b25 : byteAt (audioBufferToWav buf) 25 = buf.sampleRate / 256 % 256 := rfl
  have b26 : byteAt (audioBufferToWav buf) 26 = buf.sampleRate / 65536 % 256 := rfl
  have b27 : byteAt (audioBufferToWav buf) 27 = buf.sampleRate / 16777216 % 256 := rfl
  have b34 : byteAt (audioBufferToWav buf) 34 = 16 % 256 := rfl
  have b35 : byteAt (audioBufferToWav buf) 35 = 16 / 256 % 256 := rfl
  refine ⟨?_, ?_, ?_, ?_⟩
  · simp only [readU32LE, b4, b5, b6, b7]; omega
  · simp only [readU16LE, b22, b23]; omega
  · simp only [readU32LE, b24, b25, b26, b27]; omega
  · simp only [readU16LE, b34, b35]

/-- Witness for `wav_header_layout` at a concrete 2-channel, 3-frame,
44100 Hz buffer. -/
theorem wav_header_layout_witness :
    ((2 : ℕ) < 65536 ∧ (44100 : ℕ) < 4294967296 ∧
       (3 : ℕ) * 2 * 2 + 36 < 4294967296) ∧
    (readU32LE (audioBufferToWav ⟨2, 3, 44100, []⟩) 4 = 3 * 2 * 2 + 44 - 8 ∧
     readU16LE (audioBufferToWav ⟨2, 3, 44100, []⟩) 22 = 2 ∧
     readU32LE (audioBufferToWav ⟨2, 3, 44100, []⟩) 24 = 44100 ∧
     readU16LE (audioBufferToWav ⟨2, 3, 44100, []⟩) 34 = 16) :=
  ⟨⟨by decide, by decide, by decide⟩,
   wav_header_layout ⟨2, 3, 44100, []⟩ (by decide) (by decide) (by decide)⟩

/-! ## Data model (src/types, as used by audio-engine.ts) -/

/-- Opaque `any`-typed parameter bag (effect settings, synth settings). -/
abbrev Cfg := ℕ

/-- The five mixer tracks. -/
inductive TrackName where
  | kick | snare | hihat | bass | chords
deriving DecidableEq

/-- The three sample-based drum tracks. -/
inductive DrumTrack where
  | kick | snare | hihat
deriving DecidableEq

/-- One entry of `Pattern.trackSettings`: `{volume, pan, mute, solo}`. -/
structure OneTrack where
  volume : ℚ
  pan : ℚ
  mute : Bool
  solo : Bool
deriving DecidableEq

/-- `trackSettings`: one `OneTrack` per mixer track. -/
structure TrackSettings where
  kick : OneTrack
  snare : OneTrack
  hihat : OneTrack
  bass : OneTrack
  chords : OneTrack
deriving DecidableEq

/-- Field lookup `settings[key]`. -/
def TrackSettings.get (ts : TrackSettings) : TrackName → OneTrack
  | .kick => ts.kick
  | .snare => ts.snare
  | .hihat => ts.hihat
  | .bass => ts.bass
  | .chords => ts.chords

/-- One entry of `effectsState`: `{wet, settings}`. -/
structure EffectSetting where
  wet : ℚ
  settings : Cfg
deriving DecidableEq

/-- `effectsState`: distortion, delay and reverb of the bass chain. -/
structure EffectsState where
  distortion : EffectSetting
  delay : EffectSetting
  reverb : EffectSetting
deriving DecidableEq

/-- A boolean step row (kick / snare / hihat). -/
structure TrackStateB where
  steps : List Bool
deriving DecidableEq

/-- A string-or-null step row (bass pitches, chord names). -/
structure TrackStateS where
  steps : List (Option String)
deriving DecidableEq

/-- `sequencerState`: the five step rows of one pattern. -/
structure SequencerState where
  kick : TrackStateB
  snare : TrackStateB
  hihat : TrackStateB
  bass : TrackStateS
  chords : TrackStateS
deriving DecidableEq

/-- One pattern: sequencer content plus its stored mixer / effects / synth
settings (`prompts` are UI-only and opaque to the engine, so omitted). -/
structure Pattern where
  sequencerState : SequencerState
  trackSettings : TrackSettings
  effectsState : EffectsState
  synthState : Option Cfg
deriving DecidableEq

/-- `sampleSettings`: the sample source URL of each drum track. -/
structure SampleSettings where
  kick : String
  snare : String
  hihat : String
deriving DecidableEq

/-- Field lookup `sampleSettings[track]`. -/
def SampleSettings.get (s : SampleSettings) : DrumTrack → String
  | .kick => s.kick
  | .snare => s.snare
  | .hihat => s.hihat

/-- Field update `sampleSettings[track] = url`. -/
def SampleSettings.set (s : SampleSettings) : DrumTrack → String → SampleSettings
  | .kick, u => { s with kick := u }
  | .snare, u => { s with snare := u }
  | .hihat, u => { s with hihat := u }

/-- `masterSettings`: master volume, compressor bag, limiter threshold. -/
structure MasterSettings where
  volume : ℚ
  compressor : Cfg
  limiterThreshold : ℚ
deriving DecidableEq

/-- The root layout aggregate. -/
structure DawLayout where
  patterns : List Pattern
  arrangement : List (Option ℕ)
  bpm : ℚ
  sampleSettings : SampleSettings
  masterSettings : MasterSettings
deriving DecidableEq

/-- Every non-empty arrangement entry indexes into `patterns` (the layout
invariant of the data model). -/
def validLayout (l : DawLayout) : Bool :=
  l.arrangement.all (fun e =>
    match e with
    | none => true
    | some j => decide (j < l.patterns.length))

/-! ## Signal-graph state (the mutable node parameters the engine writes) -/

/-- One `Tone.Channel`: the parameters the engine assigns. -/
structure ChannelState where
  volume : ℚ
  pan : ℚ
  mute : Bool
deriving DecidableEq

/-- The five live (or offline) channels. -/
structure Channels where
  kick : ChannelState
  snare : ChannelState
  hihat : ChannelState
  bass : ChannelState
  chords : ChannelState
deriving DecidableEq

/-- Field lookup `channels[key]`. -/
def Channels.get (ch : Channels) : TrackName → ChannelState
  | .kick => ch.kick
  | .snare => ch.snare
  | .hihat => ch.hihat
  | .bass => ch.bass
  | .chords => ch.chords

/-- The signal state a pattern application writes: channel parameters, the
bass effect chain (wet plus settings bag per effect) and the bass synth
configuration bag. -/
structure SigState where
  channels : Channels
  fx : EffectsState
  bassSynth : Cfg
deriving DecidableEq

/-! ## Scheduled actions, as an event trace -/

/-- One observable engine action: a settings re-sync marker (carrying the
applied values) or a scheduled audio / UI event with its absolute time. -/
inductive Ev where
  | syncMixer (ts : TrackSettings)
  | syncFx (es : EffectsState)
  | syncSynth (ss : Cfg)
  | drum (t : DrumTrack) (pitch : String) (time : ℚ)
  | bassNote (note : String) (dur : ℚ) (time : ℚ)
  | chord (name : String) (dur : ℚ) (time : ℚ)
  | bassRelease (time : ℚ)
  | uiStep (step : ℕ) (bar : ℕ) (time : ℚ)
deriving DecidableEq

/-- An audio step event (drum hit, bass note, chord). -/
def Ev.isStep : Ev → Bool
  | .drum _ _ _ => true
  | .bassNote _ _ _ => true
  | .chord _ _ _ => true
  | _ => false

/-- A settings re-sync marker. -/
def Ev.isSync : Ev → Bool
  | .syncMixer _ => true
  | .syncFx _ => true
  | .syncSynth _ => true
  | _ => false

/-- The time carried by a scheduled event (0 for sync markers). -/
def Ev.timeOf : Ev → ℚ
  | .drum _ _ t => t
  | .bassNote _ _ t => t
  | .chord _ _ t => t
  | .bassRelease t => t
  | .uiStep _ _ t => t
  | _ => 0

/-! ## Engine state and the live scheduler (audio-engine.ts lines 33-345) -/

/-- The engine fields the modelled operations read or write.  `initDone`
stands for the source's `isInitialized` flag. -/
structure EngineState where
  initDone : Bool
  transportStarted : Bool
  mainLoopStarted : Bool
  uiLoopStarted : Bool
  mainLoopIterations : ℕ
  currentLayout : Option DawLayout
  currentPatternIndex : Option ℕ
  sig : SigState
  instruments : SampleSettings
deriving DecidableEq

/-- Lines 224: `Object.keys(settings).filter(key => settings[key].solo)`
is non-empty. -/
def anySoloed (ts : TrackSettings) : Bool :=
  ts.kick.solo || ts.snare.solo || ts.hihat.solo || ts.bass.solo || ts.chords.solo

/-- Lines 226-239, the loop body for one track: assign pan and volume, then
mute from the solo resolution. -/
def applyTrackSetting (solos : Bool) (o : OneTrack) : ChannelState :=
  { volume := o.volume
    pan := o.pan
    mute := if solos then !o.solo else o.mute }

/-- Lines 223-240 (`updateMixerSettings`). -/
def updateMixerSettings (ts : TrackSettings) (ch : Channels) : Channels :=
  let solos := anySoloed ts
  { kick := applyTrackSetting solos ts.kick
    snare := applyTrackSetting solos ts.snare
    hihat := applyTrackSetting solos ts.hihat
    bass := applyTrackSetting solos ts.bass
    chords := applyTrackSetting solos ts.chords }

/-- Lines 332-341 (`updateBassEffects`): assign each effect's wet and merge
its settings bag (merging modelled as replacement, the bags being opaque). -/
def updateBassEffects (es : EffectsState) (fx : EffectsState) : EffectsState :=
  { distortion := { wet := es.distortion.wet, settings := es.distortion.settings }
    delay := { wet := es.delay.wet, settings := es.delay.settings }
    reverb := { wet := es.reverb.wet, settings := es.reverb.settings } }

/-- Lines 215-221 (`loadPattern`), as its effect on the signal state. -/
def loadPatternSig (p : Pattern) (s : SigState) : SigState :=
  { channels := updateMixerSettings p.trackSettings s.channels
    fx := updateBassEffects p.effectsState s.fx
    bassSynth :=
      match p.synthState with
      | some ss => ss
      | none => s.bassSynth }

/-- Lines 215-221 (`loadPattern`), as the re-sync markers it emits. -/
def loadPatternEvs (p : Pattern) : List Ev :=
  [Ev.syncMixer p.trackSettings, Ev.syncFx p.effectsState] ++
    (match p.synthState with
     | some ss => [Ev.syncSynth ss]
     | none => [])

/-- The pitch both samplers are triggered at (`triggerAttack('C1', ...)`). -/
def pitchC1 : String := "C1"

/-- JS truthiness of a step value that is a string or null: null and the
empty string are falsy. -/
def jsTruthy : Option String → Bool
  | none => false
  | some s => !(s == "")

/-- Lines 194-213 (`schedulePattern`): for each of the 16 steps, schedule
the drum attacks, a 16th-note bass attack-release, a quarter-note chord
attack-release, and the `Tone.Draw` UI callback, all at
`time + i * Tone.Time('16n').toSeconds()`.  `sx` is the 16th-note duration
in seconds, so the quarter-note duration is `4 * sx`. -/
def schedulePattern (p : Pattern) (time sx : ℚ) (barIndex : ℕ) : List Ev :=
  (List.range 16).flatMap (fun i =>
    let stepTime := time + (i : ℚ) * sx
    (if p.sequencerState.kick.steps.getD i false
       then [Ev.drum .kick pitchC1 stepTime] else []) ++
    (if p.sequencerState.snare.steps.getD i false
       then [Ev.drum .snare pitchC1 stepTime] else []) ++
    (if p.sequencerState.hihat.steps.getD i false
       then [Ev.drum .hihat pitchC1 stepTime] else []) ++
    (match p.sequencerState.bass.steps.getD i none with
     | some note => if note = "" then [] else [Ev.bassNote note sx stepTime]
     | none => []) ++
    (match p.sequencerState.chords.steps.getD i none with
     | some name => if name = "" then [] else [Ev.chord name (4 * sx) stepTime]
     | none => []) ++
    [Ev.uiStep i barIndex stepTime])

/-- Lines 172-192 (`tick`): resolve the current bar from the loop progress,
release the bass on an empty bar, re-sync settings on a pattern switch, and
schedule the resolved pattern.  An in-bounds violation (the resolved index
falling outside the arrangement, or a stored pattern index outside
`patterns`) makes the JS dereference `undefined` and throw, modelled as
`none`. -/
def tick (st : EngineState) (progress time sx : ℚ) :
    Option (EngineState × List Ev) :=
  match st.currentLayout with
  | none => some (st, [])
  | some layout =>
    if progress * (layout.arrangement.length : ℚ) < 0 then none
    else
      let barIndex : ℕ :=
        (Rat.floor (progress * (layout.arrangement.length : ℚ))).toNat
      match layout.arrangement[barIndex]? with
      | none => none
      | some none => some (st, [Ev.bassRelease time])
      | some (some pIdx) =>
        match layout.patterns[pIdx]? with
        | none => none
        | some pattern =>
          if some pIdx = st.currentPatternIndex then
            some (st, schedulePattern pattern time sx barIndex)
          else
            some ({ st with
                      sig := loadPatternSig pattern st.sig
                      currentPatternIndex := some pIdx },
                  loadPatternEvs pattern ++ schedulePattern pattern time sx barIndex)

/-- Lines 257-264 (`start`): initialize (idempotent), then bail out if no
layout is held; otherwise set the loop iteration count and start the
transport and both loops. -/
def start (st : EngineState) : EngineState :=
  let st1 := { st with initDone := true }
  match st1.currentLayout with
  | none => st1
  | some layout =>
    { st1 with
        mainLoopIterations := layout.arrangement.length
        transportStarted := true
        mainLoopStarted := true
        uiLoopStarted := true }

/-- Lines 296-309 (`loadSample`): initialize, dispose the old sampler and
install a sampler for the new URL, then await `Tone.loaded()`.  The await's
outcome (`loadOk`) decides whether the returned promise resolves, but the
instrument swap has already happened either way. -/
def loadSample (st : EngineState) (track : DrumTrack) (url : String)
    (loadOk : Bool) : EngineState × Bool :=
  let st1 := { st with initDone := true }
  let st2 := { st1 with instruments := st1.instruments.set track url }
  (st2, loadOk)

/-! ## Offline renderer (renderSong, audio-engine.ts lines 384-482) -/

/-- Lines 95-99 of the constructor: the live channels' initial parameters
(kick -3 dB, snare -3 dB, hihat -10 dB, bass -3 dB, chords -9 dB, all
centred and unmuted). -/
def liveInitChannels : Channels :=
  { kick := { volume := -3, pan := 0, mute := false }
    snare := { volume := -3, pan := 0, mute := false }
    hihat := { volume := -10, pan := 0, mute := false }
    bass := { volume := -3, pan := 0, mute := false }
    chords := { volume := -9, pan := 0, mute := false } }

/-- Lines 102-106 and 131-135 of the constructor: the live bass effect
chain (`Distortion(0)`, `FeedbackDelay('8n', 0.5)`, `Reverb(1.5)`) and the
live bass `MonoSynth`'s sawtooth configuration, as opaque bags. -/
def liveInitSig : SigState :=
  { channels := liveInitChannels
    fx := { distortion := { wet := 1, settings := 10 }
            delay := { wet := 1, settings := 11 }
            reverb := { wet := 1, settings := 12 } }
    bassSynth := 13 }

/-- Lines 399-411 and 426-427: the offline graph's fresh defaults
(`new Tone.Channel()` at 0 dB, default `Distortion` / `FeedbackDelay` /
`Reverb`, default `MonoSynth`).  Note these differ from the live initial
values above: in particular the default offline `MonoSynth` (bag 23) is not
the live sawtooth bass (bag 13). -/
def offlineInitSig : SigState :=
  { channels :=
      { kick := { volume := 0, pan := 0, mute := false }
        snare := { volume := 0, pan := 0, mute := false }
        hihat := { volume := 0, pan := 0, mute := false }
        bass := { volume := 0, pan := 0, mute := false }
        chords := { volume := 0, pan := 0, mute := false } }
    fx := { distortion := { wet := 1, settings := 20 }
            delay := { wet := 1, settings := 21 }
            reverb := { wet := 1, settings := 22 } }
    bassSynth := 23 }

/-- Lines 440-450: the renderer's own mixer application (same shape as
`updateMixerSettings`, duplicated in the source). -/
def offlineApplyMixer (ts : TrackSettings) (ch : Channels) : Channels :=
  let solos := anySoloed ts
  { kick := { volume := ts.kick.volume, pan := ts.kick.pan
              mute := if solos then !ts.kick.solo else ts.kick.mute }
    snare := { volume := ts.snare.volume, pan := ts.snare.pan
               mute := if solos then !ts.snare.solo else ts.snare.mute }
    hihat := { volume := ts.hihat.volume, pan := ts.hihat.pan
               mute := if solos then !ts.hihat.solo else ts.hihat.mute }
    bass := { volume := ts.bass.volume, pan := ts.bass.pan
              mute := if solos then !ts.bass.solo else ts.bass.mute }
    chords := { volume := ts.chords.volume, pan := ts.chords.pan
                mute := if solos then !ts.chords.solo else ts.chords.mute } }

/-- Lines 452-458: the renderer's own bass-effects application (same shape
as `updateBassEffects`, duplicated in the source). -/
def offlineApplyFx (es : EffectsState) (fx : EffectsState) : EffectsState :=
  { distortion := { wet := es.distortion.wet, settings := es.distortion.settings }
    delay := { wet := es.delay.wet, settings := es.delay.settings }
    reverb := { wet := es.reverb.wet, settings := es.reverb.settings } }

/-- Lines 465-476: the renderer's own 16-step scheduling loop (same events
as `schedulePattern`, minus the `Tone.Draw` UI callback). -/
def offlineScheduleBar (p : Pattern) (time sx : ℚ) : List Ev :=
  (List.range 16).flatMap (fun i =>
    let stepTime := time + (i : ℚ) * sx
    (if p.sequencerState.kick.steps.getD i false
       then [Ev.drum .kick pitchC1 stepTime] else []) ++
    (if p.sequencerState.snare.steps.getD i false
       then [Ev.drum .snare pitchC1 stepTime] else []) ++
    (if p.sequencerState.hihat.steps.getD i false
       then [Ev.drum .hihat pitchC1 stepTime] else []) ++
    (match p.sequencerState.bass.steps.getD i none with
     | some note => if note = "" then [] else [Ev.bassNote note sx stepTime]
     | none => []) ++
    (match p.sequencerState.chords.steps.getD i none with
     | some name => if name = "" then [] else [Ev.chord name (4 * sx) stepTime]
     | none => []))

/-- Lines 432-477: one iteration of the renderer's per-bar loop.  An empty
entry is skipped (`continue`); otherwise the bar's pattern settings are
applied to the offline graph and its 16 steps are scheduled at
`barIndex * barDuration`.  A pattern index outside `patterns` makes the JS
property accesses throw, modelled as `none`. -/
def renderBar (layout : DawLayout) (sig : SigState) (barIndex : ℕ)
    (bd sx : ℚ) : Option (SigState × List Ev) :=
  match layout.arrangement[barIndex]? with
  | none => none
  | some none => some (sig, [])
  | some (some pIdx) =>
    match layout.patterns[pIdx]? with
    | none => none
    | some pattern =>
      let time := (barIndex : ℚ) * bd
      let sig' : SigState :=
        { channels := offlineApplyMixer pattern.trackSettings sig.channels
          fx := offlineApplyFx pattern.effectsState sig.fx
          bassSynth :=
            match pattern.synthState with
            | some ss => ss
            | none => sig.bassSynth }
      some (sig',
            ([Ev.syncMixer pattern.trackSettings, Ev.syncFx pattern.effectsState] ++
              (match pattern.synthState with
               | some ss => [Ev.syncSynth ss]
               | none => [])) ++
              offlineScheduleBar pattern time sx)

/-- The offline per-bar trace: for each listed bar, the signal state in
force while that bar is scheduled, together with the bar's scheduled audio
step events. -/
def offAux (layout : DawLayout) (bd sx : ℚ) :
    List ℕ → SigState → Option (List (SigState × List Ev))
  | [], _ => some []
  | b :: bs, sig =>
    match renderBar layout sig b bd sx with
    | none => none
    | some (sig', evs) =>
      match offAux layout bd sx bs sig' with
      | none => none
      | some rest => some ((sig', evs.filter Ev.isStep) :: rest)

/-- The live per-bar trace: run `tick` once per listed bar.  The main loop
fires once per measure, so the tick for bar `b` observes progress
`b / arrangement.length` and transport time `b * barDuration`. -/
def liveAux (layout : DawLayout) (bd sx : ℚ) :
    List ℕ → EngineState → Option (List (SigState × List Ev))
  | [], _ => some []
  | b :: bs, st =>
    match tick st ((b : ℚ) / (layout.arrangement.length : ℚ)) ((b : ℚ) * bd) sx with
    | none => none
    | some (st', evs) =>
      match liveAux layout bd sx bs st' with
      | none => none
      | some rest => some ((st'.sig, evs.filter Ev.isStep) :: rest)

/-- The renderer's per-bar loop over the whole arrangement, started from an
arbitrary initial offline signal state. -/
def renderSongBarsFrom (layout : DawLayout) (sig0 : SigState) (bd sx : ℚ) :
    Option (List (SigState × List Ev)) :=
  offAux layout bd sx (List.range layout.arrangement.length) sig0

/-- `renderSong`'s per-bar loop, from the renderer's own fresh graph. -/
def renderSongBars (layout : DawLayout) (bd sx : ℚ) :
    Option (List (SigState × List Ev)) :=
  renderSongBarsFrom layout offlineInitSig bd sx

/-- Line 386: `totalDuration = barDuration * layout.arrangement.length`. -/
def renderSongDuration (layout : DawLayout) (bd : ℚ) : ℚ :=
  bd * (layout.arrangement.length : ℚ)

/-- The engine state at the start of playback of `layout` (after
`updateAll` and `start`; `Tone.Transport`'s stop handler has reset
`currentPatternIndex` to null), with signal state `sig0`. -/
def livePlaybackState (layout : DawLayout) (sig0 : SigState) : EngineState :=
  { initDone := true
    transportStarted := true
    mainLoopStarted := true
    uiLoopStarted := true
    mainLoopIterations := layout.arrangement.length
    currentLayout := some layout
    currentPatternIndex := none
    sig := sig0
    instruments := layout.sampleSettings }

/-- The live scheduler's per-bar trace over the whole arrangement. -/
def liveBarsFrom (layout : DawLayout) (sig0 : SigState) (bd sx : ℚ) :
    Option (List (SigState × List Ev)) :=
  liveAux layout bd sx (List.range layout.arrangement.length)
    (livePlaybackState layout sig0)

/-! ## Supporting lemmas for the live / offline comparison -/

theorem offlineApplyMixer_eq (ts : TrackSettings) (ch : Channels) :
    offlineApplyMixer ts ch = updateMixerSettings ts ch := rfl

theorem offlineApplyFx_eq (es fx : EffectsState) :
    offlineApplyFx es fx = updateBassEffects es fx := rfl

theorem loadPatternSig_idem (p : Pattern) (s : SigState) :
    loadPatternSig p (loadPatternSig p s) = loadPatternSig p s := by
  cases hp : p.synthState <;>
    simp [loadPatternSig, updateMixerSettings, updateBassEffects, hp]

theorem filter_flatMap' {α β : Type} (l : List α) (f : α → List β) (q : β → Bool) :
    (l.flatMap f).filter q = l.flatMap (fun a => (f a).filter q) := by
  induction l with
  | nil => rfl
  | cons a l ih => simp only [List.flatMap_cons, List.filter_append, ih]

theorem sched_filter_isStep (p : Pattern) (t sx : ℚ) (b : ℕ) :
    (schedulePattern p t sx b).filter Ev.isStep = offlineScheduleBar p t sx := by
  unfold schedulePattern offlineScheduleBar
  rw [filter_flatMap']
  congr 1
  funext i
  simp only [List.filter_append]
  repeat' split
  all_goals simp [Ev.isStep]

theorem sched_filter_isSync (p : Pattern) (t sx : ℚ) (b : ℕ) :
    (schedulePattern p t sx b).filter Ev.isSync = [] := by
  unfold schedulePattern
  rw [filter_flatMap', List.flatMap_eq_nil_iff]
  intro i _
  simp only [List.filter_append]
  repeat' split
  all_goals simp [Ev.isSync]

theorem offSched_filter_isStep (p : Pattern) (t sx : ℚ) :
    (offlineScheduleBar p t sx).filter Ev.isStep = offlineScheduleBar p t sx := by
  unfold offlineScheduleBar
  rw [filter_flatMap']
  congr 1
  funext i
  simp only [List.filter_append]
  repeat' split
  all_goals simp [Ev.isStep]

theorem loadEvs_filter_isStep (p : Pattern) :
    (loadPatternEvs p).filter Ev.isStep = [] := by
  cases hp : p.synthState <;> simp [loadPatternEvs, hp, Ev.isStep]

theorem loadEvs_filter_isSync (p : Pattern) :
    (loadPatternEvs p).filter Ev.isSync = loadPatternEvs p := by
  cases hp : p.synthState <;> simp [loadPatternEvs, hp, Ev.isSync]

/-- `tick`, with the bar index already resolved from the loop progress. -/
def tickAt (layout : DawLayout) (st : EngineState) (b : ℕ) (time sx : ℚ) :
    Option (EngineState × List Ev) :=
  match layout.arrangement[b]? with
  | none => none
  | some none => some (st, [Ev.bassRelease time])
  | some (some pIdx) =>
    match layout.patterns[pIdx]? with
    | none => none
    | some pattern =>
      if some pIdx = st.currentPatternIndex then
        some (st, schedulePattern pattern time sx b)
      else
        some ({ st with
                  currentLayout := some layout
                  sig := loadPatternSig pattern st.sig
                  currentPatternIndex := some pIdx },
              loadPatternEvs pattern ++ schedulePattern pattern time sx b)

theorem tick_resolve (st : EngineState) (layout : DawLayout) (b : ℕ)
    (time sx : ℚ)
    (hlay : st.currentLayout = some layout)
    (hb : b < layout.arrangement.length) :
    tick st ((b : ℚ) / (layout.arrangement.length : ℚ)) time sx =
      tickAt layout st b time sx := by
  have hn : ((layout.arrangement.length : ℚ)) ≠ 0 := Nat.cast_ne_zero.mpr (by omega)
  have hmul : (b : ℚ) / (layout.arrangement.length : ℚ) *
      (layout.arrangement.length : ℚ) = (b : ℚ) := div_mul_cancel₀ _ hn
  unfold tick
  rw [hlay]
  dsimp only
  rw [hmul, if_neg (not_lt.mpr (by positivity)), ratFloor_eq_floor,
    Int.floor_natCast, Int.toNat_natCast]
  rfl

theorem tickAt_null (layout : DawLayout) (st : EngineState) (b : ℕ)
    (time sx : ℚ) (he : layout.arrangement[b]? = some none) :
    tickAt layout st b time sx = some (st, [Ev.bassRelease time]) := by
  unfold tickAt; rw [he]

theorem tickAt_same (layout : DawLayout) (st : EngineState) (b : ℕ)
    (time sx : ℚ) (k : ℕ) (p : Pattern)
    (he : layout.arrangement[b]? = some (some k))
    (hp : layout.patterns[k]? = some p)
    (hcpi : some k = st.currentPatternIndex) :
    tickAt layout st b time sx = some (st, schedulePattern p time sx b) := by
  unfold tickAt; rw [he]; dsimp only; rw [hp]; dsimp only; rw [if_pos hcpi]

theorem tickAt_switch (layout : DawLayout) (st : EngineState) (b : ℕ)
    (time sx : ℚ) (k : ℕ) (p : Pattern)
    (he : layout.arrangement[b]? = some (some k))
    (hp : layout.patterns[k]? = some p)
    (hcpi : ¬ some k = st.currentPatternIndex) :
    tickAt layout st b time sx =
      some ({ st with
                currentLayout := some layout
                sig := loadPatternSig p st.sig
                currentPatternIndex := some k },
            loadPatternEvs p ++ schedulePattern p time sx b) := by
  unfold tickAt; rw [he]; dsimp only; rw [hp]; dsimp only; rw [if_neg hcpi]

theorem renderBar_null (layout : DawLayout) (sig : SigState) (b : ℕ)
    (bd sx : ℚ) (he : layout.arrangement[b]? = some none) :
    renderBar layout sig b bd sx = some (sig, []) := by
  unfold renderBar; rw [he]

theorem renderBar_some (layout : DawLayout) (sig : SigState) (b : ℕ)
    (bd sx : ℚ) (k : ℕ) (p : Pattern)
    (he : layout.arrangement[b]? = some (some k))
    (hp : layout.patterns[k]? = some p) :
    renderBar layout sig b bd sx =
      some (loadPatternSig p sig,
            loadPatternEvs p ++ offlineScheduleBar p ((b : ℚ) * bd) sx) := by
  unfold renderBar; rw [he]; dsimp only; rw [hp]; rfl

/-- The live scheduler's invariant between bars: either no pattern has been
applied yet, or the remembered pattern index names a valid pattern whose
application leaves the current signal state fixed. -/
def SyncInv (layout : DawLayout) (st : EngineState) : Prop :=
  st.currentPatternIndex = none ∨
    ∃ k p, st.currentPatternIndex = some k ∧ layout.patterns[k]? = some p ∧
      loadPatternSig p st.sig = st.sig

theorem live_eq_off (layout : DawLayout) (hv : validLayout layout = true)
    (bd sx : ℚ) :
    ∀ (bs : List ℕ) (st : EngineState),
      (∀ x ∈ bs, x < layout.arrangement.length) →
      st.currentLayout = some layout →
      SyncInv layout st →
      liveAux layout bd sx bs st = offAux layout bd sx bs st.sig := by
  intro bs
  induction bs with
  | nil => intro st _ _ _; rfl
  | cons b bs ih =>
    intro st hmem hlay hinv
    have hb : b < layout.arrangement.length := hmem b (List.mem_cons_self b bs)
    have hmem' : ∀ x ∈ bs, x < layout.arrangement.length := fun x hx =>
      hmem x (List.mem_cons_of_mem b hx)
    obtain ⟨e, he⟩ : ∃ e, layout.arrangement[b]? = some e :=
      ⟨_, List.getElem?_eq_getElem hb⟩
    simp only [liveAux, offAux]
    rw [tick_resolve st layout b ((b : ℚ) * bd) sx hlay hb]
    cases e with
    | none =>
      rw [tickAt_null layout st b _ sx he, renderBar_null layout st.sig b bd sx he]
      dsimp only
      rw [ih st hmem' hlay hinv]
      cases offAux layout bd sx bs st.sig <;> rfl
    | some k =>
      have hkv : k < layout.patterns.length := by
        have hmemk : some k ∈ layout.arrangement := List.getElem?_mem he
        have := (List.all_eq_true.mp hv) _ hmemk
        simpa using this
      obtain ⟨p, hp⟩ : ∃ p, layout.patterns[k]? = some p :=
        ⟨_, List.getElem?_eq_getElem hkv⟩
      rw [renderBar_some layout st.sig b bd sx k p he hp]
      by_cases hcpi : some k = st.currentPatternIndex
      · have hfix : loadPatternSig p st.sig = st.sig := by
          rcases hinv with h0 | ⟨k', p', hk', hp', hfx⟩
          · rw [h0] at hcpi; exact absurd hcpi (by simp)
          · rw [hk'] at hcpi
            have hkk : k = k' := Option.some.inj hcpi
            subst hkk
            have hpp : p' = p := Option.some.inj (hp'.symm.trans hp)
            subst hpp
            exact hfx
        rw [tickAt_same layout st b _ sx k p he hp hcpi]
        rw [hfix]
        dsimp only
        rw [ih st hmem' hlay hinv]
        cases hoff : offAux layout bd sx bs st.sig with
        | none => rfl
        | some rest =>
          dsimp only
          rw [sched_filter_isStep, List.filter_append, loadEvs_filter_isStep,
            offSched_filter_isStep]
          simp
      · rw [tickAt_switch layout st b _ sx k p he hp hcpi]
        have hlay' : ({ st with
            currentLayout := some layout
            sig := loadPatternSig p st.sig
            currentPatternIndex := some k } : EngineState).currentLayout =
              some layout := rfl
        have hinv' : SyncInv layout { st with
            currentLayout := some layout
            sig := loadPatternSig p st.sig
            currentPatternIndex := some k } :=
          Or.inr ⟨k, p, rfl, hp, loadPatternSig_idem p st.sig⟩
        dsimp only
        rw [ih _ hmem' hlay' hinv']
        dsimp only
        cases hoff : offAux layout bd sx bs (loadPatternSig p st.sig) with
        | none => rfl
        | some rest =>
          dsimp only
          rw [List.filter_append, List.filter_append, sched_filter_isStep,
            loadEvs_filter_isStep, offSched_filter_isStep]

/-! ## Concrete fixtures used by the witnesses -/

/-- A neutral per-track setting. -/
def egOne : OneTrack := { volume := 0, pan := 0, mute := false, solo := false }

/-- Neutral track settings. -/
def egTrackSettings : TrackSettings :=
  { kick := egOne, snare := egOne, hihat := egOne, bass := egOne, chords := egOne }

/-- Neutral effects settings. -/
def egEffectsState : EffectsState :=
  { distortion := { wet := 0, settings := 0 }
    delay := { wet := 0, settings := 0 }
    reverb := { wet := 0, settings := 0 } }

/-- An empty 16-step sequencer (steps lists empty; every read yields a rest). -/
def egSeq : SequencerState :=
  { kick := { steps := [] }, snare := { steps := [] }, hihat := { steps := [] }
    bass := { steps := [] }, chords := { steps := [] } }

/-- A concrete pattern. -/
def egPattern : Pattern :=
  { sequencerState := egSeq, trackSettings := egTrackSettings
    effectsState := egEffectsState, synthState := some 5 }

/-- A concrete layout: two patterns, four bars with a gap. -/
def egLayout : DawLayout :=
  { patterns := [egPattern, egPattern]
    arrangement := [some 0, none, some 0, some 1]
    bpm := 120
    sampleSettings := { kick := "kick.wav", snare := "snare.wav", hihat := "hihat.wav" }
    masterSettings := { volume := 0, compressor := 0, limiterThreshold := 0 } }

/-- A concrete layout whose first bar is empty. -/
def egLayoutGap : DawLayout :=
  { patterns := [egPattern]
    arrangement := [none, some 0]
    bpm := 120
    sampleSettings := { kick := "kick.wav", snare := "snare.wav", hihat := "hihat.wav" }
    masterSettings := { volume := 0, compressor := 0, limiterThreshold := 0 } }

/-- Track settings with one soloed track (snare) and a muted non-soloed
track (kick), exercising the solo override. -/
def egSoloTS : TrackSettings :=
  { kick := { volume := 0, pan := 0, mute := true, solo := false }
    snare := { volume := 0, pan := 0, mute := false, solo := true }
    hihat := egOne, bass := egOne, chords := egOne }

/-- An engine state holding no layout. -/
def egNoLayoutState : EngineState :=
  { initDone := false, transportStarted := false, mainLoopStarted := false
    uiLoopStarted := false, mainLoopIterations := 0
    currentLayout := none, currentPatternIndex := none
    sig := liveInitSig
    instruments := { kick := "kick.wav", snare := "snare.wav", hihat := "hihat.wav" } }

/-! ## The claims about the scheduler and renderer -/

/-- C1: for every valid layout and every common starting voice / channel /
effects configuration, the offline renderer's per-bar loop produces, bar for
bar, exactly the signal settings in force (mixer with mute/solo resolution,
bass effects, bass synth) and exactly the scheduled audio step events
(instrument, pitch, duration, time offset) that the live scheduler's
`tick` / `schedulePattern` produces for that bar. -/
theorem renderSong_matches_live_per_bar (layout : DawLayout) (sig0 : SigState)
    (bd sx : ℚ) (hv : validLayout layout = true) :
    renderSongBarsFrom layout sig0 bd sx = liveBarsFrom layout sig0 bd sx := by
  unfold renderSongBarsFrom liveBarsFrom
  exact (live_eq_off layout hv bd sx (List.range layout.arrangement.length)
    (livePlaybackState layout sig0)
    (fun x hx => List.mem_range.mp hx) rfl (Or.inl rfl)).symm

/-- Witness for `renderSong_matches_live_per_bar` on a concrete layout. -/
theorem renderSong_matches_live_per_bar_witness :
    validLayout egLayout = true ∧
    renderSongBarsFrom egLayout liveInitSig 2 1 =
      liveBarsFrom egLayout liveInitSig 2 1 :=
  ⟨by decide, renderSong_matches_live_per_bar egLayout liveInitSig 2 1 (by decide)⟩

/-- C3: whenever track settings are applied (live `updateMixerSettings` or
the offline per-bar application), if at least one track has solo=true then
every track's channel mute is set to the negation of its own solo flag,
regardless of its own mute flag; if no track has solo=true, every track's
channel mute is set to its own mute flag. -/
theorem mute_solo_resolution (ts : TrackSettings) (ch : Channels) (t : TrackName) :
    (anySoloed ts = true ↔
       (ts.kick.solo = true ∨ ts.snare.solo = true ∨ ts.hihat.solo = true ∨
        ts.bass.solo = true ∨ ts.chords.solo = true)) ∧
    (anySoloed ts = true →
       ((updateMixerSettings ts ch).get t).mute = !(ts.get t).solo ∧
       ((offlineApplyMixer ts ch).get t).mute = !(ts.get t).solo) ∧
    (anySoloed ts = false →
       ((updateMixerSettings ts ch).get t).mute = (ts.get t).mute ∧
       ((offlineApplyMixer ts ch).get t).mute = (ts.get t).mute) := by
  refine ⟨?_, ?_, ?_⟩
  · simp only [anySoloed, Bool.or_eq_true]
    tauto
  · intro h
    cases t <;>
      simp [updateMixerSettings, offlineApplyMixer, applyTrackSetting,
        TrackSettings.get, Channels.get, h]
  · intro h
    cases t <;>
      simp [updateMixerSettings, offlineApplyMixer, applyTrackSetting,
        TrackSettings.get, Channels.get, h]

/-- Witness for `mute_solo_resolution`: with the snare soloed, the kick is
muted (its channel mute is the negation of its solo flag) although its own
mute flag is irrelevant. -/
theorem mute_solo_resolution_witness :
    anySoloed egSoloTS = true ∧
    (((updateMixerSettings egSoloTS liveInitChannels).get .kick).mute =
        !(egSoloTS.get .kick).solo ∧
     ((offlineApplyMixer egSoloTS liveInitChannels).get .kick).mute =
        !(egSoloTS.get .kick).solo) :=
  ⟨by decide,
   (mute_solo_resolution egSoloTS liveInitChannels .kick).2.1 (by decide)⟩

/-- C4: a tick that resolves a non-empty bar re-syncs the full settings
(mixer, bass effects, synth, via `loadPattern`) exactly when the resolved
pattern index differs from the remembered active pattern index: on a switch
it applies that pattern's stored settings once, and afterwards the
remembered index equals the resolved one, so a sustained pattern never
re-syncs again; on a sustained pattern the engine state is unchanged and no
sync is emitted. -/
theorem tick_resync_on_switch_only (st : EngineState) (layout : DawLayout)
    (progress time sx : ℚ) (k : ℕ) (p : Pattern)
    (hlay : st.currentLayout = some layout)
    (hpos : 0 ≤ progress)
    (hk : layout.arrangement[(Rat.floor
        (progress * (layout.arrangement.length : ℚ))).toNat]? = some (some k))
    (hp : layout.patterns[k]? = some p) :
    ∃ st' evs, tick st progress time sx = some (st', evs) ∧
      st'.currentPatternIndex = some k ∧
      (some k = st.currentPatternIndex →
         st' = st ∧
         evs = schedulePattern p time sx ((Rat.floor
             (progress * (layout.arrangement.length : ℚ))).toNat) ∧
         evs.filter Ev.isSync = []) ∧
      (some k ≠ st.currentPatternIndex →
         st'.sig = loadPatternSig p st.sig ∧
         evs = loadPatternEvs p ++ schedulePattern p time sx ((Rat.floor
             (progress * (layout.arrangement.length : ℚ))).toNat) ∧
         evs.filter Ev.isSync = loadPatternEvs p) := by
  unfold tick
  rw [hlay]
  dsimp only
  rw [if_neg (not_lt.mpr (mul_nonneg hpos (Nat.cast_nonneg _)))]
  rw [hk]
  dsimp only
  rw [hp]
  dsimp only
  by_cases hcpi : some k = st.currentPatternIndex
  · rw [if_pos hcpi]
    refine ⟨st, _, rfl, hcpi.symm, ?_, ?_⟩
    · intro _
      exact ⟨rfl, rfl, sched_filter_isSync p time sx _⟩
    · intro hne; exact absurd hcpi hne
  · rw [if_neg hcpi]
    refine ⟨_, _, rfl, rfl, ?_, ?_⟩
    · intro hsame; exact absurd hsame hcpi
    · intro _
      refine ⟨rfl, rfl, ?_⟩
      rw [List.filter_append, sched_filter_isSync, loadEvs_filter_isSync]
      simp

/-- Witness for `tick_resync_on_switch_only`: the first tick of playback
(remembered index null) resolves pattern 0 and re-syncs once. -/
theorem tick_resync_on_switch_only_witness :
    ((livePlaybackState egLayout liveInitSig).currentLayout = some egLayout ∧
     (0 : ℚ) ≤ 0 ∧
     egLayout.arrangement[(Rat.floor
         ((0 : ℚ) * (egLayout.arrangement.length : ℚ))).toNat]? = some (some 0) ∧
     egLayout.patterns[0]? = some egPattern) ∧
    (∃ st' evs,
       tick (livePlaybackState egLayout liveInitSig) 0 0 1 = some (st', evs) ∧
       st'.currentPatternIndex = some 0 ∧
       (some 0 = (livePlaybackState egLayout liveInitSig).currentPatternIndex →
          st' = livePlaybackState egLayout liveInitSig ∧
          evs = schedulePattern egPattern 0 1 ((Rat.floor
              ((0 : ℚ) * (egLayout.arrangement.length : ℚ))).toNat) ∧
          evs.filter Ev.isSync = []) ∧
       (some 0 ≠ (livePlaybackState egLayout liveInitSig).currentPatternIndex →
          st'.sig = loadPatternSig egPattern (livePlaybackState egLayout liveInitSig).sig ∧
          evs = loadPatternEvs egPattern ++ schedulePattern egPattern 0 1 ((Rat.floor
              ((0 : ℚ) * (egLayout.arrangement.length : ℚ))).toNat) ∧
          evs.filter Ev.isSync = loadPatternEvs egPattern)) :=
  ⟨⟨rfl, le_refl 0, by simp only [zero_mul]; decide, by decide⟩,
   tick_resync_on_switch_only (livePlaybackState egLayout liveInitSig) egLayout
     0 0 1 0 egPattern rfl (le_refl 0)
     (by simp only [zero_mul]; decide) (by decide)⟩

/-- C5: a tick whose resolved arrangement entry is empty sends a release to
the bass voice and takes no further action: the returned state is unchanged
(in particular the remembered active pattern index), and the only emitted
event is the bass release, which is neither a step event nor a re-sync. -/
theorem tick_empty_bar_release_only (st : EngineState) (layout : DawLayout)
    (progress time sx : ℚ)
    (hlay : st.currentLayout = some layout)
    (hpos : 0 ≤ progress)
    (hnull : layout.arrangement[(Rat.floor
        (progress * (layout.arrangement.length : ℚ))).toNat]? = some none) :
    tick st progress time sx = some (st, [Ev.bassRelease time]) ∧
    ([Ev.bassRelease time].filter Ev.isStep = [] ∧
     [Ev.bassRelease time].filter Ev.isSync = []) := by
  refine ⟨?_, rfl, rfl⟩
  unfold tick
  rw [hlay]
  dsimp only
  rw [if_neg (not_lt.mpr (mul_nonneg hpos (Nat.cast_nonneg _)))]
  rw [hnull]

/-- Witness for `tick_empty_bar_release_only` at the empty first bar of a
concrete layout. -/
theorem tick_empty_bar_release_only_witness :
    ((livePlaybackState egLayoutGap liveInitSig).currentLayout = some egLayoutGap ∧
     (0 : ℚ) ≤ 0 ∧
     egLayoutGap.arrangement[(Rat.floor
         ((0 : ℚ) * (egLayoutGap.arrangement.length : ℚ))).toNat]? = some none) ∧
    (tick (livePlaybackState egLayoutGap liveInitSig) 0 7 1 =
       some (livePlaybackState egLayoutGap liveInitSig, [Ev.bassRelease 7]) ∧
     ([Ev.bassRelease (7 : ℚ)].filter Ev.isStep = [] ∧
      [Ev.bassRelease (7 : ℚ)].filter Ev.isSync = [])) :=
  ⟨⟨rfl, le_refl 0, by simp only [zero_mul]; decide⟩,
   tick_empty_bar_release_only (livePlaybackState egLayoutGap liveInitSig)
     egLayoutGap 0 7 1 rfl (le_refl 0) (by simp only [zero_mul]; decide)⟩

/-- C10: `start` invoked while no layout has been provided performs the
one-time audio initialization and then returns: the transport and both loops
are not started and the iteration count is untouched; likewise a tick with
no layout held does nothing at all (state unchanged, nothing scheduled). -/
theorem start_without_layout_inert (st : EngineState)
    (h : st.currentLayout = none) :
    start st = { st with initDone := true } ∧
    (start st).transportStarted = st.transportStarted ∧
    (start st).mainLoopStarted = st.mainLoopStarted ∧
    (start st).uiLoopStarted = st.uiLoopStarted ∧
    (start st).mainLoopIterations = st.mainLoopIterations ∧
    (∀ progress time sx, tick st progress time sx = some (st, [])) := by
  have hs : start st = { st with initDone := true } := by
    unfold start
    dsimp only
    rw [h]
  refine ⟨hs, by rw [hs], by rw [hs], by rw [hs], by rw [hs], ?_⟩
  intro progress time sx
  unfold tick
  rw [h]

/-- Witness for `start_without_layout_inert` at a concrete engine state. -/
theorem start_without_layout_inert_witness :
    egNoLayoutState.currentLayout = none ∧
    (start egNoLayoutState = { egNoLayoutState with initDone := true } ∧
     (start egNoLayoutState).transportStarted = egNoLayoutState.transportStarted ∧
     (start egNoLayoutState).mainLoopStarted = egNoLayoutState.mainLoopStarted ∧
     (start egNoLayoutState).uiLoopStarted = egNoLayoutState.uiLoopStarted ∧
     (start egNoLayoutState).mainLoopIterations = egNoLayoutState.mainLoopIterations ∧
     (∀ progress time sx,
        tick egNoLayoutState progress time sx = some (egNoLayoutState, []))) :=
  ⟨rfl, start_without_layout_inert egNoLayoutState rfl⟩

/-! ## C7: render duration and step offsets -/

theorem offAux_length (layout : DawLayout) (bd sx : ℚ) :
    ∀ (bs : List ℕ) (sig : SigState) (tr : List (SigState × List Ev)),
      offAux layout bd sx bs sig = some tr → tr.length = bs.length := by
  intro bs
  induction bs with
  | nil =>
    intro sig tr h
    simp only [offAux] at h
    injection h with h2
    subst h2
    rfl
  | cons b bs ih =>
    intro sig tr h
    simp only [offAux] at h
    cases hrb : renderBar layout sig b bd sx with
    | none => rw [hrb] at h; exact absurd h (by simp)
    | some pr =>
      obtain ⟨sig', evs⟩ := pr
      rw [hrb] at h
      dsimp only at h
      cases hre : offAux layout bd sx bs sig' with
      | none => rw [hre] at h; exact absurd h (by simp)
      | some rest =>
        rw [hre] at h
        dsimp only at h
        injection h with h2
        subst h2
        simp [ih sig' rest hre]

theorem mem_offSched_time (p : Pattern) (t sx : ℚ) (e : Ev)
    (he : e ∈ offlineScheduleBar p t sx) :
    ∃ i : ℕ, i < 16 ∧ Ev.timeOf e = t + (i : ℚ) * sx := by
  simp only [offlineScheduleBar, List.mem_flatMap] at he
  obtain ⟨i, hi, he⟩ := he
  refine ⟨i, List.mem_range.mp hi, ?_⟩
  simp only [List.mem_append] at he
  rcases he with ((((h | h) | h) | h) | h)
  · revert h; split <;> (intro h; simp_all [Ev.timeOf])
  · revert h; split <;> (intro h; simp_all [Ev.timeOf])
  · revert h; split <;> (intro h; simp_all [Ev.timeOf])
  · rcases hv : p.sequencerState.bass.steps.getD i none with _ | sNote
    · rw [hv] at h; simp at h
    · rw [hv] at h
      dsimp only at h
      by_cases hse : sNote = ""
      · rw [if_pos hse] at h; simp at h
      · rw [if_neg hse] at h; simp_all [Ev.timeOf]
  · rcases hv : p.sequencerState.chords.steps.getD i none with _ | sName
    · rw [hv] at h; simp at h
    · rw [hv] at h
      dsimp only at h
      by_cases hse : sName = ""
      · rw [if_pos hse] at h; simp at h
      · rw [if_neg hse] at h; simp_all [Ev.timeOf]

theorem mem_loadEvs_not_step (p : Pattern) (e : Ev)
    (he : e ∈ loadPatternEvs p) : Ev.isStep e = false := by
  cases hp : p.synthState <;> simp [loadPatternEvs, hp] at he <;>
    rcases he with h | h | h <;> simp_all [Ev.isStep]

/-- C7: the offline render's total duration is
`barDuration * arrangement.length`; the per-bar loop visits exactly one slot
per arrangement bar; a bar with an empty entry changes no state and schedules
no events (it contributes only silence); and every audio step event a
non-empty bar schedules sits at exactly `step_index * sixteenth` past the
bar's base time `barIndex * barDuration`, with `step_index < 16`. -/
theorem renderSong_duration_and_offsets (layout : DawLayout) (bd sx : ℚ) :
    renderSongDuration layout bd = bd * (layout.arrangement.length : ℚ) ∧
    (∀ tr, renderSongBars layout bd sx = some tr →
       tr.length = layout.arrangement.length) ∧
    (∀ sig b, layout.arrangement[b]? = some none →
       renderBar layout sig b bd sx = some (sig, [])) ∧
    (∀ sig b out, renderBar layout sig b bd sx = some out →
       ∀ e ∈ out.2, Ev.isStep e = true →
         ∃ i : ℕ, i < 16 ∧ Ev.timeOf e = (b : ℚ) * bd + (i : ℚ) * sx) := by
  refine ⟨rfl, ?_, ?_, ?_⟩
  · intro tr h
    have := offAux_length layout bd sx (List.range layout.arrangement.length)
      offlineInitSig tr h
    simpa using this
  · intro sig b hnull
    exact renderBar_null layout sig b bd sx hnull
  · intro sig b out hout e he hstep
    unfold renderBar at hout
    cases harr : layout.arrangement[b]? with
    | none => rw [harr] at hout; exact absurd hout (by simp)
    | some e0 =>
      rw [harr] at hout
      cases e0 with
      | none =>
        dsimp only at hout
        injection hout with h2
        subst h2
        exact absurd he (by simp)
      | some k =>
        dsimp only at hout
        cases hpk : layout.patterns[k]? with
        | none => rw [hpk] at hout; exact absurd hout (by simp)
        | some p =>
          rw [hpk] at hout
          dsimp only at hout
          injection hout with h2
          subst h2
          rw [List.mem_append] at he
          rcases he with he | he
          · have hf := mem_loadEvs_not_step p e he
            rw [hf] at hstep
            exact absurd hstep (by simp)
          · exact mem_offSched_time p _ sx e he

/-- Witness for `renderSong_duration_and_offsets` on a concrete layout with
one empty and one non-empty bar. -/
theorem renderSong_duration_and_offsets_witness :
    renderSongDuration egLayoutGap 2 = 2 * (egLayoutGap.arrangement.length : ℚ) ∧
    ([((offlineInitSig : SigState), ([] : List Ev)),
      (loadPatternSig egPattern offlineInitSig, [])]).length =
      egLayoutGap.arrangement.length ∧
    renderBar egLayoutGap offlineInitSig 0 2 1 = some (offlineInitSig, []) := by
  have h : renderSongBars egLayoutGap 2 1 =
      some [(offlineInitSig, []), (loadPatternSig egPattern offlineInitSig, [])] := by
    decide
  refine ⟨(renderSong_duration_and_offsets egLayoutGap 2 1).1,
          (renderSong_duration_and_offsets egLayoutGap 2 1).2.1 _ h,
          (renderSong_duration_and_offsets egLayoutGap 2 1).2.2.1
            offlineInitSig 0 (by decide)⟩

/-! ## UI handlers (src/unnamed/part_001) -/

/-- The notifications the handlers show (`showNotification` text). -/
inductive Notification where
  | loadingSample (t : DrumTrack)
  | sampleLoaded (t : DrumTrack)
  | sampleLoadError (t : DrumTrack)
  | enterChordPrompt
  | chordsGenerated
  | chordsFailed
deriving DecidableEq

/-- part_001 lines 811-826 (`handleSampleSelected`): show a loading
notification, await `loadSample`, and only on success write the new URL into
`layout.sampleSettings`; on failure log and notify.  The engine-side effect
of `loadSample` (the already-performed sampler swap) happens either way. -/
def handleSampleSelected (layout : DawLayout) (st : EngineState)
    (track : DrumTrack) (url : String) (loadOk : Bool) :
    DawLayout × EngineState × List Notification :=
  let n0 := [Notification.loadingSample track]
  let res := loadSample st track url loadOk
  if res.2 then
    ({ layout with sampleSettings := layout.sampleSettings.set track url },
     res.1, n0 ++ [Notification.sampleLoaded track])
  else
    (layout, res.1, n0 ++ [Notification.sampleLoadError track])

/-- C8 (counterexample): a failing kick-sample load leaves the layout's
sampleSettings untouched, but the engine's kick instrument HAS been swapped
to the failed source, contradicting the claim that neither is swapped. -/
theorem load_error_swaps_instrument_counterexample :
    (handleSampleSelected egLayout (livePlaybackState egLayout liveInitSig)
        .kick ("bad.wav") false).2.1.instruments.kick = "bad.wav" ∧
    (livePlaybackState egLayout liveInitSig).instruments.kick = "kick.wav" ∧
    ("bad.wav" : String) ≠ "kick.wav" ∧
    (handleSampleSelected egLayout (livePlaybackState egLayout liveInitSig)
        .kick ("bad.wav") false).1 = egLayout ∧
    (handleSampleSelected egLayout (livePlaybackState egLayout liveInitSig)
        .kick ("bad.wav") false).2.2 =
      [Notification.loadingSample .kick, Notification.sampleLoadError .kick] := by
  decide

/-- C8 (amended): on a LoadError the error is logged and surfaced as a user
notification and the layout's sampleSettings entry for the track is left
unchanged; the engine's instrument for that track, however, has already been
replaced by a sampler for the failed source, because `loadSample` disposes
the old sampler and installs the new one before awaiting the load. -/
theorem load_error_amended (layout : DawLayout) (st : EngineState)
    (track : DrumTrack) (url : String) :
    (handleSampleSelected layout st track url false).1 = layout ∧
    (handleSampleSelected layout st track url false).2.1.instruments =
      st.instruments.set track url ∧
    (handleSampleSelected layout st track url false).2.2 =
      [Notification.loadingSample track, Notification.sampleLoadError track] :=
  ⟨rfl, rfl, rfl⟩

/-- part_001 lines 948-975 (`handleGenerateChords`): reject a blank prompt;
otherwise accept the AI helper's result (`aiResult`) only when it is a list
of exactly 16 entries, in which case it replaces the chord steps; a null
result or a list of any other length leaves the pattern untouched and shows
a failure notification.  JS `!prompt.trim()` is true exactly when the prompt
is all whitespace.  (`audioEngine.updateAll` after the mutation is outside
the pattern state modelled here.) -/
def handleGenerateChords (p : Pattern) (promptText : String)
    (aiResult : Option (List (Option String))) : Pattern × Notification :=
  if promptText.data.all Char.isWhitespace then
    (p, Notification.enterChordPrompt)
  else
    match aiResult with
    | some cs =>
      if cs.length = 16 then
        ({ p with sequencerState :=
             { p.sequencerState with chords := { steps := cs } } },
         Notification.chordsGenerated)
      else (p, Notification.chordsFailed)
    | none => (p, Notification.chordsFailed)

/-- C9: with a non-blank prompt, a null AI result or one with fewer or more
than exactly 16 entries is rejected: the pattern's chord steps are not
mutated and a notification is shown; only a result of exactly 16 entries
replaces the chord steps. -/
theorem generate_chords_rejects_non16 (p : Pattern) (promptText : String)
    (res : Option (List (Option String)))
    (hprompt : promptText.data.all Char.isWhitespace = false) :
    (res = none →
       handleGenerateChords p promptText res = (p, Notification.chordsFailed)) ∧
    (∀ cs, res = some cs → cs.length ≠ 16 →
       handleGenerateChords p promptText res = (p, Notification.chordsFailed)) ∧
    (∀ cs, res = some cs → cs.length = 16 →
       handleGenerateChords p promptText res =
         ({ p with sequencerState :=
              { p.sequencerState with chords := { steps := cs } } },
          Notification.chordsGenerated)) := by
  unfold handleGenerateChords
  rw [if_neg (by simp [hprompt])]
  refine ⟨?_, ?_, ?_⟩
  · rintro rfl; rfl
  · rintro cs rfl hne
    dsimp only
    rw [if_neg hne]
  · rintro cs rfl h16
    dsimp only
    rw [if_pos h16]

/-- Witness for `generate_chords_rejects_non16`: a 1-entry result is
rejected without mutating the pattern. -/
theorem generate_chords_rejects_non16_witness :
    (("jazz" : String).data.all Char.isWhitespace = false ∧
     ([(none : Option String)]).length ≠ 16) ∧
    handleGenerateChords egPattern ("jazz") (some [none]) =
      (egPattern, Notification.chordsFailed) :=
  ⟨⟨by decide, by decide⟩,
   (generate_chords_rejects_non16 egPattern ("jazz") (some [none])
       (by decide)).2.1 [none] rfl (by decide)⟩

end IkarDaw
